import Mathlib

/-!
Verification of the four-pillars computation engine of `app_mobile.py`.

The Python module is shallowly embedded: the ten heavenly stems and twelve
earthly branches become enumerated types, the various constant dictionaries
become total functions over those types (their key sets are exactly the
enumerations), wall-clock instants become either explicit
year/month/day/hour/minute records or integer counts of minutes or
microseconds, and Python dictionary / list indexing that can raise becomes
`Option`.  Functions are translated line by line from the source; comments
quote the corresponding Python.
-/

namespace Saju

/-- The ten heavenly stems 갑..계, in the order of the Python list
`CHEONGAN = ['갑','을','병','정','무','기','경','신','임','계']`. -/
inductive Stem where
  | gap | eul | byeong | jeong | mu | gi | gyeong | sinS | im | gye
deriving DecidableEq, Repr, Fintype

/-- The twelve earthly branches 자..해, in the order of the Python list
`JIJI = ['자','축','인','묘','진','사','오','미','신','유','술','해']`. -/
inductive Branch where
  | ja | chuk | inB | myo | jin | sa | oh | mi | sinB | yu | sul | hae
deriving DecidableEq, Repr, Fintype

/-- The five elements 목/화/토/금/수. -/
inductive Elem where
  | wood | fire | earth | metal | water
deriving DecidableEq, Repr, Fintype

/-- Polarity 양/음. -/
inductive Pol where
  | yang | yin
deriving DecidableEq, Repr, Fintype

open Stem Branch Elem Pol

/-- Korean character of a stem (the strings of the Python list `CHEONGAN`). -/
def stemChar : Stem → String
  | gap => "갑" | eul => "을" | byeong => "병" | jeong => "정" | mu => "무"
  | gi => "기" | gyeong => "경" | sinS => "신" | im => "임" | gye => "계"

/-- Korean character of a branch (the strings of the Python list `JIJI`). -/
def branchChar : Branch → String
  | ja => "자" | chuk => "축" | inB => "인" | myo => "묘" | jin => "진" | sa => "사"
  | oh => "오" | mi => "미" | sinB => "신" | yu => "유" | sul => "술" | hae => "해"

/-- `CHEONGAN` — the ten stems in list order, indices 0..9. -/
def CHEONGAN : List Stem := [gap, eul, byeong, jeong, mu, gi, gyeong, sinS, im, gye]

/-- `JIJI` — the twelve branches in list order, indices 0..11. -/
def JIJI : List Branch := [ja, chuk, inB, myo, jin, sa, oh, mi, sinB, yu, sul, hae]

/-- `MONTH_JI = ['인','묘','진','사','오','미','신','유','술','해','자','축']` (寅..丑). -/
def MONTH_JI : List Branch := [inB, myo, jin, sa, oh, mi, sinB, yu, sul, hae, ja, chuk]

/-- Index of a stem in `CHEONGAN` (0..9). -/
def stemIdx : Stem → Nat
  | gap => 0 | eul => 1 | byeong => 2 | jeong => 3 | mu => 4
  | gi => 5 | gyeong => 6 | sinS => 7 | im => 8 | gye => 9

/-- Index of a branch in `JIJI` (0..11) — the "12-branch order". -/
def branchIdx : Branch → Nat
  | ja => 0 | chuk => 1 | inB => 2 | myo => 3 | jin => 4 | sa => 5
  | oh => 6 | mi => 7 | sinB => 8 | yu => 9 | sul => 10 | hae => 11

/-- The dictionary `STEM_ELEM`: element of each stem.  Its key set is exactly
the ten stems, so it is a total function here. -/
def STEM_ELEM : Stem → Elem
  | gap => wood | eul => wood | byeong => fire | jeong => fire | mu => earth
  | gi => earth | gyeong => metal | sinS => metal | im => water | gye => water

/-- The dictionary `STEM_YINYANG`: polarity of each stem. -/
def STEM_YINYANG : Stem → Pol
  | gap => yang | eul => yin | byeong => yang | jeong => yin | mu => yang
  | gi => yin | gyeong => yang | sinS => yin | im => yang | gye => yin

/-- The dictionary `BRANCH_MAIN_STEM`: the main hidden stem (본기) of each branch. -/
def BRANCH_MAIN_STEM : Branch → Stem
  | ja => gye | chuk => gi | inB => gap | myo => eul | jin => mu | sa => byeong
  | oh => jeong | mi => gi | sinB => gyeong | yu => sinS | sul => mu | hae => im

/-- The dictionary `BRANCH_HIDDEN`: ordered hidden stems of each branch. -/
def BRANCH_HIDDEN : Branch → List Stem
  | ja => [im, gye]
  | chuk => [gye, sinS, gi]
  | inB => [mu, byeong, gap]
  | myo => [gap, eul]
  | jin => [eul, gye, mu]
  | sa => [mu, gyeong, byeong]
  | oh => [byeong, gi, jeong]
  | mi => [jeong, eul, gi]
  | sinB => [mu, im, gyeong]
  | yu => [gyeong, sinS]
  | sul => [sinS, jeong, mu]
  | hae => [mu, gap, im]

/-- `all_hidden_stems`: union of the hidden stems of a list of branches
(membership in the union is all the classifier uses). -/
def all_hidden_stems (branches : List Branch) : List Stem :=
  branches.flatMap BRANCH_HIDDEN

/-- The dictionary `SAMHAP_GROUP`: triad (삼합) branch group of each element. -/
def SAMHAP_GROUP : Elem → List Branch
  | fire => [inB, oh, sul]
  | wood => [hae, myo, mi]
  | water => [sinB, ja, jin]
  | metal => [sa, yu, chuk]
  | earth => []

/-- The dictionary `MONTH_TO_SAMHAP_ELEM` (the duplicated literal keys of the
Python dict literal resolve to these final values). -/
def MONTH_TO_SAMHAP_ELEM : Branch → Elem
  | inB => fire | oh => fire | sul => fire
  | hae => wood | myo => wood | mi => wood
  | sinB => water | ja => water | jin => water
  | sa => metal | yu => metal | chuk => metal

/-- `ELEM_PRODUCE`: the production cycle 목→화→토→금→수→목. -/
def ELEM_PRODUCE : Elem → Elem
  | wood => fire | fire => earth | earth => metal | metal => water | water => wood

/-- `ELEM_CONTROL`: the control cycle 목→토, 화→금, 토→수, 금→목, 수→화. -/
def ELEM_CONTROL : Elem → Elem
  | wood => earth | fire => metal | earth => water | metal => wood | water => fire

/-- `ELEM_OVERCOME_ME = {v:k for k,v in ELEM_CONTROL.items()}` — the inverse of
the control map, written out. -/
def ELEM_OVERCOME_ME : Elem → Elem
  | earth => wood | metal => fire | water => earth | wood => metal | fire => water

/-- `ELEM_PRODUCE_ME = {v:k for k,v in ELEM_PRODUCE.items()}` — the inverse of
the production map, written out. -/
def ELEM_PRODUCE_ME : Elem → Elem
  | fire => wood | earth => fire | metal => earth | water => metal | wood => water

/-- Sanity: `ELEM_OVERCOME_ME` really is the inverse of `ELEM_CONTROL`. -/
theorem elem_overcome_me_inverse : ∀ e, ELEM_OVERCOME_ME (ELEM_CONTROL e) = e := by decide

/-- Sanity: `ELEM_PRODUCE_ME` really is the inverse of `ELEM_PRODUCE`. -/
theorem elem_produce_me_inverse : ∀ e, ELEM_PRODUCE_ME (ELEM_PRODUCE e) = e := by decide

/-- `stems_of_element`: the two stems of each element, yang first. -/
def stems_of_element : Elem → List Stem
  | wood => [gap, eul]
  | fire => [byeong, jeong]
  | earth => [mu, gi]
  | metal => [gyeong, sinS]
  | water => [im, gye]

/-- `stem_with_polarity(elem, parity)`: `a, b = stems_of_element(elem);
return a if parity=='양' else b`. -/
def stem_with_polarity (e : Elem) (p : Pol) : Stem :=
  match stems_of_element e, p with
  | a :: _, yang => a
  | _ :: b :: _, yin => b
  | _, _ => gap  -- unreachable: every element has exactly two stems

/-- `ten_god_for_stem(day_stem, other_stem)` — the Ten-God classifier,
translated if-by-if from the source (including the `'미정'` fallback). -/
def ten_god_for_stem (day_stem other_stem : Stem) : String :=
  let d_e := STEM_ELEM day_stem
  let d_p := STEM_YINYANG day_stem
  let o_e := STEM_ELEM other_stem
  let o_p := STEM_YINYANG other_stem
  if o_e = d_e then (if o_p = d_p then "비견" else "겁재")
  else if o_e = ELEM_PRODUCE d_e then (if o_p = d_p then "식신" else "상관")
  else if o_e = ELEM_CONTROL d_e then (if o_p = d_p then "편재" else "정재")
  else if o_e = ELEM_OVERCOME_ME d_e then (if o_p = d_p then "편관" else "정관")
  else if o_e = ELEM_PRODUCE_ME d_e then (if o_p = d_p then "편인" else "정인")
  else "미정"

/-- `ten_god_for_branch`: Ten God of the branch's main hidden stem. -/
def ten_god_for_branch (day_stem : Stem) (branch : Branch) : String :=
  ten_god_for_stem day_stem (BRANCH_MAIN_STEM branch)

/-- The ten relationship labels, in the order they appear in the source. -/
def tenGodLabels : List String :=
  ["비견", "겁재", "식신", "상관", "편재", "정재", "편관", "정관", "편인", "정인"]

/-- C5: For every pair of valid stems (all 100 ordered pairs of the 10 stems),
`ten_god_for_stem` returns exactly one of the 10 relationship labels, and the
residual `'미정'` branch is unreachable, because the five element relations
(same, produces, controls, controlled-by, produced-by) cover all five
elements. -/
theorem ten_god_total :
    ∀ d o : Stem, ten_god_for_stem d o ∈ tenGodLabels ∧ ten_god_for_stem d o ≠ "미정" := by
  decide


/-! ## The pattern classifier `decide_geok` -/

/-- Korean name of an element (the dict values '목','화','토','금','수'). -/
def elemChar : Elem → String
  | Elem.wood => "목" | Elem.fire => "화" | Elem.earth => "토"
  | Elem.metal => "금" | Elem.water => "수"

/-- `is_first_half_by_terms(dt_solar, first_term_dt, mid_term_dt)`:
`first_term_dt <= dt_solar < mid_term_dt`.  Instants are modelled as minute
counts on a common clock; only their order is consumed. -/
def is_first_half_by_terms (dt_solar first_term_dt mid_term_dt : Int) : Prop :=
  first_term_dt ≤ dt_solar ∧ dt_solar < mid_term_dt

instance (a b c : Int) : Decidable (is_first_half_by_terms a b c) :=
  inferInstanceAs (Decidable (_ ∧ _))

/-- The `Inputs` dataclass.  `month_stem` is a Python `str` tested for
truthiness (`if inp.month_stem:`), so the empty string is modelled as `none`.
The three instants are minute counts; `day_from_jieqi` is the integer
day-count. -/
structure Inputs where
  day_stem : Stem
  month_branch : Branch
  month_stem : Option Stem
  stems_visible : List Stem
  branches_visible : List Branch
  solar_dt : Int
  first_term_dt : Int
  mid_term_dt : Int
  day_from_jieqi : Int

/-- The special-gate block of `decide_geok` (source lines 326-346), reached
when the month branch is one of 자/오/묘/유/인/신/사/해 and its main hidden
stem shares the day stem's element.  The locals at the top re-derive the
enclosing function's locals from `inp`. -/
def geok_special (inp : Inputs) : String × String :=
  let ds := inp.day_stem
  let mb_main := BRANCH_MAIN_STEM inp.month_branch
  let ds_e := STEM_ELEM ds
  let ds_p := STEM_YINYANG ds
  let mb_p := STEM_YINYANG mb_main
  let branches := inp.branches_visible
  let visible_set := inp.stems_visible
  let off_e := ELEM_OVERCOME_ME ds_e
  let jung_gwan := stem_with_polarity off_e (if ds_p = Pol.yang then Pol.yin else Pol.yang)
  let pyeon_gwan := stem_with_polarity off_e ds_p
  let same_polarity := ds_p = mb_p
  let any_jung_br := branches.any (fun b => ten_god_for_branch ds b = "정관")
  let jung_branches := branches.filter (fun b => ten_god_for_branch ds b = "정관")
  let any_pyeon_br := branches.any (fun b => ten_god_for_branch ds b = "편관")
  let pyeon_branches := branches.filter (fun b => ten_god_for_branch ds b = "편관")
  if same_polarity then
    if jung_gwan ∈ visible_set ∨ any_jung_br = true then
      let why := if jung_gwan ∈ visible_set
        then "정관 " ++ stemChar jung_gwan ++ " 천간 투간"
        else "지지 정관 존재(" ++ String.intercalate "," (jung_branches.map branchChar) ++ ")"
      ("건록격", "[특수] 월비(일/월 음양 같음) + " ++ why ++ " → 건록격.")
    else
      ("월비격", "[특수] 월비(일/월 음양 같음) · 정관(천간/지지) 없음 → 월비격.")
  else
    if pyeon_gwan ∈ visible_set ∨ any_pyeon_br = true then
      let why := if pyeon_gwan ∈ visible_set
        then "편관 " ++ stemChar pyeon_gwan ++ " 천간 투간"
        else "지지 편관 존재(" ++ String.intercalate "," (pyeon_branches.map branchChar) ++ ")"
      ("양인격", "[특수] 월겁(일/월 음양 다름) + " ++ why ++ " → 양인격.")
    else
      ("월겁격", "[특수] 월겁(일/월 음양 다름) · 편관(천간/지지) 없음 → 월겁격.")

/-- The 자오묘유 group block of `decide_geok` (source lines 348-357). -/
def geok_jaomyoyu (inp : Inputs) : String × String :=
  let ds := inp.day_stem
  let ds_p := STEM_YINYANG ds
  let mb_main := BRANCH_MAIN_STEM inp.month_branch
  let stems := inp.stems_visible
  let month_elem := STEM_ELEM mb_main
  let same_elem_visible := stems.filter (fun s => STEM_ELEM s = month_elem)
  match same_elem_visible with
  | s0 :: _ =>
    let pick := ((same_elem_visible.find? (fun s => STEM_YINYANG s ≠ ds_p)).getD s0)
    let six := ten_god_for_stem ds pick
    (six ++ "격", "[자오묘유] 월지와 같은 오행(" ++ elemChar month_elem ++ ") "
      ++ stemChar pick ++ " 투간 → " ++ six ++ "격.")
  | [] =>
    let base := mb_main
    let six := ten_god_for_stem ds base
    (six ++ "격", "[자오묘유] 같은 오행 투간 없음 → 체(본기 " ++ stemChar base
      ++ ") 기준 " ++ six ++ "격.")

/-- The 인신사해 group block of `decide_geok` (source lines 358-394).  Every
Python operation in this block is total. -/
def geok_insinsahae (inp : Inputs) : String × String :=
  let ds := inp.day_stem
  let mb := inp.month_branch
  let rokji := BRANCH_MAIN_STEM mb
  let month_elem := STEM_ELEM rokji
  let base_stems := stems_of_element month_elem
  let base_visible := inp.stems_visible.filter (fun s => s ∈ base_stems)
  match base_visible with
  | pick :: _ =>
    -- line 375: the shared fall-through result `six = ten_god(ds, pick)`
    let defaultRes :=
      let six := ten_god_for_stem ds pick
      (six ++ "격", "[인신사해] 록지(" ++ elemChar month_elem ++ ") " ++ stemChar pick
        ++ " 투간자 원칙 → " ++ six ++ "격.")
    if month_elem = STEM_ELEM ds then
      let off_e := ELEM_OVERCOME_ME (STEM_ELEM ds)
      let jung_gwan := stem_with_polarity off_e
        (if STEM_YINYANG ds = Pol.yang then Pol.yin else Pol.yang)
      let pyeon_gwan := stem_with_polarity off_e (STEM_YINYANG ds)
      if STEM_YINYANG pick = STEM_YINYANG ds then
        if jung_gwan ∈ inp.stems_visible then
          ("건록격", "[인신사해] 록지(" ++ elemChar month_elem ++ ") " ++ stemChar pick
            ++ " 투간 + 정관(" ++ stemChar jung_gwan ++ ") 투간 → 건록격.")
        else defaultRes
      else
        if pyeon_gwan ∈ inp.stems_visible then
          ("양인격", "[인신사해] 록지(" ++ elemChar month_elem ++ ") " ++ stemChar pick
            ++ " 투간 + 편관(" ++ stemChar pyeon_gwan ++ ") 투간 → 양인격.")
        else defaultRes
    else defaultRes
  | [] =>
    let tri_elem := MONTH_TO_SAMHAP_ELEM mb
    let tri_group := SAMHAP_GROUP tri_elem
    let others := tri_group.filter (fun b => b ≠ mb)
    -- lines 390-394: the result when the triad rule does not fire
    let afterTriad : String × String :=
      match inp.month_stem with
      | some msv =>
        let six := ten_god_for_stem ds msv
        (six ++ "격", "[인신사해] 록지 투간 없음 → 월간 " ++ stemChar msv
          ++ " 기준 " ++ six ++ "격.")
      | none =>
        let six := ten_god_for_stem ds rokji
        (six ++ "격", "[인신사해] 록지·중기·월간 투간 불성립 → 본기("
          ++ stemChar rokji ++ ") 기준 " ++ six ++ "격.")
    if others.all (fun b => b ∈ inp.branches_visible) ∧
        is_first_half_by_terms inp.solar_dt inp.first_term_dt inp.mid_term_dt then
      let tri_stems := stems_of_element tri_elem
      let tri_visible := tri_stems.filter (fun s => s ∈ inp.stems_visible)
      match tri_visible with
      | t0 :: _ =>
        if tri_elem ≠ STEM_ELEM ds then
          let opp := tri_visible.filter (fun s => STEM_YINYANG s ≠ STEM_YINYANG ds)
          let pick := (opp.head?).getD t0
          let six := ten_god_for_stem ds pick
          ("중기격(" ++ six ++ ")", "[인신사해] 삼합 성립 + 중기 사령 + "
            ++ stemChar pick ++ " 투간 → 중기격.")
        else afterTriad
      | [] =>
        if tri_elem ≠ STEM_ELEM ds then
          ("중기상생격", "[인신사해] 삼합 성립 + 중기 사령(투간 없음) → 중기 상생격.")
        else afterTriad
    else afterTriad

/-- The 진술축미 group block of `decide_geok` (source lines 395-446).  Python
list indexing of `month_hiddens` (which would raise `IndexError` on an empty
hidden-stem list) is modelled with `Option`. -/
def geok_jinsulchukmi (inp : Inputs) : Option (String × String) :=
  let ds := inp.day_stem
  let mb := inp.month_branch
  let mb_main := BRANCH_MAIN_STEM mb
  let stems := inp.stems_visible
  let branches := inp.branches_visible
  let visible_set := stems
  let tri_elem := MONTH_TO_SAMHAP_ELEM mb
  let tri_group := SAMHAP_GROUP tri_elem
  let others := tri_group.filter (fun b => b ≠ mb)
  let partners := others.filter (fun b => b ∈ branches)
  let month_hiddens := BRANCH_HIDDEN mb
  let is_front12 := inp.day_from_jieqi ≤ 11
  match partners with
  | _ :: _ =>
    if tri_elem = STEM_ELEM ds then
      let pick := mb_main
      let six := ten_god_for_stem ds pick
      some (six ++ "격", "[진술축미] 반합 성립(" ++ branchChar mb ++ "+"
        ++ String.intercalate "," (partners.map branchChar) ++ "→" ++ elemChar tri_elem
        ++ ") 하지만 합국이 일간(" ++ elemChar (STEM_ELEM ds)
        ++ ")과 동일 → 건록/양인 금지, 체(본기 " ++ stemChar pick ++ ")로 " ++ six ++ "격.")
    else
      let tri_stems := stems_of_element tri_elem
      let tri_visible := tri_stems.filter (fun s => s ∈ visible_set)
      -- mid_qi = month_hiddens[1] if len(month_hiddens)>=2 else month_hiddens[-1]
      let body : Stem → String × String := fun mid_qi =>
        let mid_is_tri := STEM_ELEM mid_qi = tri_elem
        let pick :=
          match tri_visible with
          | t0 :: _ =>
            if 2 ≤ tri_visible.length ∧ mid_is_tri ∧ mid_qi ∈ tri_visible then mid_qi
            else if tri_visible.length = 1 then t0
            else if mid_is_tri then mid_qi else t0
          | [] =>
            if mid_is_tri then mid_qi
            else stem_with_polarity tri_elem
              (if STEM_YINYANG ds = Pol.yang then Pol.yin else Pol.yang)
        let six := ten_god_for_stem ds pick
        (six ++ "격", "[진술축미] 반합 성립(" ++ branchChar mb ++ "+"
          ++ String.intercalate "," (partners.map branchChar) ++ "→" ++ elemChar tri_elem
          ++ ") + 중기/투간 규칙 적용 → " ++ stemChar pick ++ " 기준 " ++ six ++ "격.")
      match month_hiddens with
      | _ :: midq :: _ => some (body midq)
      | [x] => some (body x)
      | [] => none  -- Python: IndexError on month_hiddens[-1]
  | [] =>
    if is_front12 then
      match month_hiddens with
      | yeogi :: _ =>
        let y_elem := STEM_ELEM yeogi
        let same_elem_visible := stems.filter (fun s => STEM_ELEM s = y_elem)
        let opp_first := same_elem_visible.filter (fun s => STEM_YINYANG s ≠ STEM_YINYANG ds)
        let pn :=
          match opp_first with
          | p :: _ => (p, "여기사령·투간우선(" ++ stemChar p ++ ")")
          | [] =>
            match same_elem_visible with
            | p :: _ => (p, "여기사령·동일오행투간(" ++ stemChar p ++ ")")
            | [] => (yeogi, "여기사령(" ++ stemChar yeogi ++ ")")
        let six := ten_god_for_stem ds pn.1
        some (six ++ "격", "[진술축미] 절입 후 12일(" ++ pn.2 ++ ") → " ++ stemChar pn.1
          ++ " 기준 " ++ six ++ "격.")
      | [] => none  -- Python: IndexError on month_hiddens[0]
    else
      let earth_vis := [Stem.mu, Stem.gi].filter (fun s => s ∈ visible_set)
      let pn :=
        match earth_vis with
        | e0 :: _ =>
          let opp := earth_vis.filter (fun s => STEM_YINYANG s ≠ STEM_YINYANG ds)
          let pick := (opp.head?).getD e0
          (pick, "주왕토 투간(" ++ stemChar pick ++ ")")
        | [] => (mb_main, "본기(" ++ stemChar mb_main ++ ")")
      let six := ten_god_for_stem ds pn.1
      some (six ++ "격", "[진술축미] 절입 13~말일(" ++ pn.2 ++ ") → " ++ stemChar pn.1
        ++ " 기준 " ++ six ++ "격.")

/-- `decide_geok(inp)` — the pattern classifier.  The source is one function;
its special gate and three group blocks are factored here into the four
functions above, and this function is its top-level control flow: the special
gate test, the `grp` computation and dispatch, and the (unreachable) final
fallback of lines 447-448.  The locals `after_mid`, `pool`, `hidden_set` and
the unused first `month_hiddens` binding of the source are never consumed and
are omitted. -/
def decide_geok (inp : Inputs) : Option (String × String) :=
  let ds := inp.day_stem
  let mb := inp.month_branch
  let ds_e := STEM_ELEM ds
  let mb_main := BRANCH_MAIN_STEM mb
  let mb_e := STEM_ELEM mb_main
  -- if mb in {'자','오','묘','유','인','신','사','해'} and ds_e == mb_e:
  if mb ∈ [Branch.ja, Branch.oh, Branch.myo, Branch.yu,
      Branch.inB, Branch.sinB, Branch.sa, Branch.hae] ∧ ds_e = mb_e then
    some (geok_special inp)
  else
    -- grp = '자오묘유' if ... else ('인신사해' if ... else '진술축미')
    let grp := if mb ∈ [Branch.ja, Branch.oh, Branch.myo, Branch.yu] then "자오묘유"
      else if mb ∈ [Branch.inB, Branch.sinB, Branch.sa, Branch.hae] then "인신사해"
      else "진술축미"
    if grp = "자오묘유" then some (geok_jaomyoyu inp)
    else if grp = "인신사해" then some (geok_insinsahae inp)
    else if grp = "진술축미" then geok_jinsulchukmi inp
    else
      -- line 447, the final fallback; `grp` is always one of the three group
      -- strings, so this is unreachable, exactly as in the source
      let six := ten_god_for_stem ds mb_main
      some (six ++ "격", "[폴백] 규칙 미적용 → 체(본기 " ++ stemChar mb_main ++ ")로 "
        ++ six ++ "격.")


/-- The four special-gate labels of the classifier. -/
def specialGeokLabels : List String := ["건록격", "월비격", "양인격", "월겁격"]

/-- Every label `decide_geok` can produce: the four special labels, a Ten-God
label suffixed `격`, a `중기격(...)` label around a Ten-God label, or
`중기상생격`. -/
def allGeokLabels : List String :=
  specialGeokLabels ++ tenGodLabels.map (fun t => t ++ "격")
    ++ tenGodLabels.map (fun t => "중기격(" ++ t ++ ")") ++ ["중기상생격"]

theorem branch_hidden_ne_nil : ∀ b : Branch, BRANCH_HIDDEN b ≠ [] := by decide

theorem tengod_geok_mem : ∀ d o : Stem, (ten_god_for_stem d o ++ "격") ∈ allGeokLabels := by
  decide

theorem tengod_junggi_mem :
    ∀ d o : Stem, ("중기격(" ++ ten_god_for_stem d o ++ ")") ∈ allGeokLabels := by
  decide

theorem special_labels_sub_all : ∀ s, s ∈ specialGeokLabels → s ∈ allGeokLabels := by
  intro s hs
  unfold allGeokLabels
  simp [List.mem_append, hs]

theorem geok_special_label_mem : ∀ inp : Inputs, (geok_special inp).1 ∈ specialGeokLabels := by
  intro inp
  simp only [geok_special]
  repeat' split
  all_goals simp [specialGeokLabels]

theorem geok_jaomyoyu_label_mem : ∀ inp : Inputs, (geok_jaomyoyu inp).1 ∈ allGeokLabels := by
  intro inp
  simp only [geok_jaomyoyu]
  repeat' split
  all_goals exact tengod_geok_mem _ _

theorem geok_insinsahae_label_mem :
    ∀ inp : Inputs, (geok_insinsahae inp).1 ∈ allGeokLabels := by
  intro inp
  simp only [geok_insinsahae]
  repeat' split
  all_goals
    first
      | exact tengod_geok_mem _ _
      | exact tengod_junggi_mem _ _
      | simp [allGeokLabels, specialGeokLabels, tenGodLabels]

theorem geok_jinsulchukmi_total :
    ∀ inp : Inputs,
      ∃ lw : String × String, geok_jinsulchukmi inp = some lw ∧ lw.1 ∈ allGeokLabels := by
  intro inp
  obtain ⟨ds, mb, ms, sv, bv, sdt, ftd, mtd, dj⟩ := inp
  cases mb <;>
    · simp only [geok_jinsulchukmi, BRANCH_HIDDEN, MONTH_TO_SAMHAP_ELEM, SAMHAP_GROUP,
        BRANCH_MAIN_STEM]
      repeat' split
      all_goals exact ⟨_, rfl, tengod_geok_mem _ _⟩

/-- C2: For every combination of day stem, month branch, arbitrary lists of
valid visible stems and branches, any query instant and bounding term
instants, and any day-count (in particular every count in [0,29]),
`decide_geok` raises no exception and returns exactly one
(label, justification) pair: every Python dictionary lookup is over a key set
that covers the whole enumeration, the only partial list indexings are on
hidden-stem lists that are never empty, and the label is always one of the
well-formed pattern labels. -/
theorem decide_geok_total :
    ∀ inp : Inputs, ∃ lw : String × String, decide_geok inp = some lw ∧ lw.1 ∈ allGeokLabels := by
  intro inp
  simp only [decide_geok]
  repeat' split
  all_goals
    first
      | exact ⟨_, rfl, special_labels_sub_all _ (geok_special_label_mem inp)⟩
      | exact ⟨_, rfl, geok_jaomyoyu_label_mem inp⟩
      | exact ⟨_, rfl, geok_insinsahae_label_mem inp⟩
      | exact geok_jinsulchukmi_total inp
      | exact ⟨_, rfl, tengod_geok_mem _ _⟩

/-- C1 counterexample: with day stem 무 and month branch 진, the month
branch's main hidden stem (무) shares the day stem's element (토), yet
`decide_geok` does NOT take the special gate: it classifies through the
진술축미 group and returns the three-group label "정관격", which is none of
the four special labels. -/
theorem geok_special_gate_counterexample :
    STEM_ELEM (BRANCH_MAIN_STEM Branch.jin) = STEM_ELEM Stem.mu ∧
    decide_geok ⟨Stem.mu, Branch.jin, none, [], [], 0, 0, 1, 0⟩ =
      some ("정관격", "[진술축미] 절입 후 12일(여기사령(을)) → 을 기준 정관격.") ∧
    "정관격" ∉ specialGeokLabels := by
  refine ⟨rfl, rfl, ?_⟩
  decide

/-- C1 (amended): whenever the month branch is one of the eight
자/오/묘/유/인/신/사/해 branches AND its main hidden stem has the same element
as the day stem, `decide_geok` takes the special-gate branch and returns one
of the four fixed special labels, never a three-group label. -/
theorem geok_special_gate_amended :
    ∀ inp : Inputs,
      inp.month_branch ∈ [Branch.ja, Branch.oh, Branch.myo, Branch.yu,
        Branch.inB, Branch.sinB, Branch.sa, Branch.hae] →
      STEM_ELEM inp.day_stem = STEM_ELEM (BRANCH_MAIN_STEM inp.month_branch) →
      ∃ lw : String × String, decide_geok inp = some lw ∧ lw.1 ∈ specialGeokLabels := by
  intro inp h1 h2
  simp only [decide_geok]
  split
  case isFalse h => exact absurd ⟨h1, h2⟩ h
  case isTrue h => exact ⟨_, rfl, geok_special_label_mem inp⟩

/-- Witness for the amended C1 at a concrete input (day stem 갑, month branch
인, whose main hidden stem 갑 is also wood). -/
theorem geok_special_gate_amended_witness :
    ∃ lw : String × String,
      decide_geok ⟨Stem.gap, Branch.inB, none, [], [], 0, 0, 1, 0⟩ = some lw ∧
      lw.1 ∈ specialGeokLabels :=
  geok_special_gate_amended ⟨Stem.gap, Branch.inB, none, [], [], 0, 0, 1, 0⟩
    (by decide) (by decide)


/-! ## Calendar arithmetic and the day pillar -/

/-- A civil (proleptic Gregorian) date, as carried by a Python
`datetime.date`.  Fields are integers; validity is a separate predicate. -/
structure Date where
  year : Int
  month : Int
  day : Int
deriving DecidableEq, Repr

/-- A wall-clock instant at minute resolution, as carried by a Python
`datetime.datetime` (the engine's solar-time values are minute-resolution). -/
structure DateTime where
  year : Int
  month : Int
  day : Int
  hour : Int
  minute : Int
deriving DecidableEq, Repr

/-- The date part of a `DateTime` (Python `.date()`). -/
def DateTime.date (dt : DateTime) : Date := ⟨dt.year, dt.month, dt.day⟩

/-- `jdn_0h_utc(y, m, d)` — the Julian Day Number formula of the source:
`if m <= 2: y -= 1; m += 12`, `A = y // 100; B = 2 - A + A // 4`, then
`int(365.25*(y + 4716)) + int(30.6001*(m + 1)) + d + B - 1524`.  The two
float truncations are exact integer floors here: `365.25*(y+4716)` is exactly
representable and positive for every Python-representable year (1..9999), and
`int(30.6001*(m+1))` agrees with `(306001*(m+1))/10000` for every adjusted
month 3..14. -/
def jdn_0h_utc (y m d : Int) : Int :=
  let y1 := if m ≤ 2 then y - 1 else y
  let m1 := if m ≤ 2 then m + 12 else m
  let A := y1 / 100
  let B := 2 - A + A / 4
  1461 * (y1 + 4716) / 4 + 306001 * (m1 + 1) / 10000 + d + B - 1524

/-- Gregorian leap-year rule (the calendar Python `datetime` arithmetic uses). -/
def isLeapYear (y : Int) : Prop := (y % 4 = 0 ∧ y % 100 ≠ 0) ∨ y % 400 = 0

instance (y : Int) : Decidable (isLeapYear y) :=
  inferInstanceAs (Decidable (_ ∨ _))

/-- Length of a month in the proleptic Gregorian calendar. -/
def daysInMonth (y m : Int) : Int :=
  if m = 2 then (if isLeapYear y then 29 else 28)
  else if m = 4 ∨ m = 6 ∨ m = 9 ∨ m = 11 then 30 else 31

/-- A date is valid when its month and day are in calendar range (Python
`datetime.date` also restricts the year to 1..9999; the arithmetic lemmas
below do not need that bound). -/
def Date.Valid (d : Date) : Prop :=
  1 ≤ d.month ∧ d.month ≤ 12 ∧ 1 ≤ d.day ∧ d.day ≤ daysInMonth d.year d.month

instance (d : Date) : Decidable d.Valid :=
  inferInstanceAs (Decidable (_ ∧ _))

/-- The next civil date — Python `date + timedelta(days=1)`. -/
def Date.next (d : Date) : Date :=
  if d.day < daysInMonth d.year d.month then ⟨d.year, d.month, d.day + 1⟩
  else if d.month < 12 then ⟨d.year, d.month + 1, 1⟩
  else ⟨d.year + 1, 1, 1⟩

theorem Date.next_valid {d : Date} (h : d.Valid) : d.next.Valid := by
  obtain ⟨y, m, dd⟩ := d
  obtain ⟨h1, h2, h3, h4⟩ := h
  simp only [Date.Valid, Date.next, daysInMonth] at *
  split_ifs at * <;> simp_all <;> omega

theorem jdn_year_step (y : Int) :
    1461 * (y + 4716) / 4 = 1461 * (y + 4715) / 4 + 365 + (if y % 4 = 0 then 1 else 0) := by
  obtain ⟨q, r, hr0, hr3, rfl⟩ : ∃ q r, 0 ≤ r ∧ r < 4 ∧ y = 4 * q + r :=
    ⟨y / 4, y % 4, by omega, by omega, by omega⟩
  interval_cases r <;> split_ifs <;> omega

theorem cent_step (y : Int) :
    (y - 1) / 100 = y / 100 - (if y % 100 = 0 then 1 else 0) := by
  obtain ⟨q, r, hr0, hr9, rfl⟩ : ∃ q r, 0 ≤ r ∧ r < 100 ∧ y = 100 * q + r :=
    ⟨y / 100, y % 100, by omega, by omega, by omega⟩
  split_ifs <;> omega

theorem cent4_step (y : Int) :
    (y - 1) / 100 / 4 = y / 100 / 4 - (if y % 400 = 0 then 1 else 0) := by
  obtain ⟨q, r, hr0, hr9, rfl⟩ : ∃ q r, 0 ≤ r ∧ r < 400 ∧ y = 400 * q + r :=
    ⟨y / 400, y % 400, by omega, by omega, by omega⟩
  have h5 : r = 0 ∨ r = 100 ∨ r = 200 ∨ r = 300 ∨ r % 100 ≠ 0 := by omega
  rcases h5 with rfl | rfl | rfl | rfl | hne <;> split_ifs <;> omega

set_option maxHeartbeats 2000000 in
/-- The Julian Day Number formula advances by exactly one across every valid
date boundary (month ends, February in leap and non-leap years, year ends
included). -/
theorem jdn_next_date {d : Date} (h : d.Valid) :
    jdn_0h_utc d.next.year d.next.month d.next.day =
      jdn_0h_utc d.year d.month d.day + 1 := by
  obtain ⟨y, m, dd⟩ := d
  simp only [Date.Valid] at h
  obtain ⟨h1, h2, h3, h4⟩ := h
  have h4' : dd ≤ 31 ∧
      (m = 2 → ((y % 4 = 0 ∧ y % 100 ≠ 0) ∨ y % 400 = 0 → dd ≤ 29) ∧
        (¬((y % 4 = 0 ∧ y % 100 ≠ 0) ∨ y % 400 = 0) → dd ≤ 28)) ∧
      (m = 4 ∨ m = 6 ∨ m = 9 ∨ m = 11 → dd ≤ 30) := by
    simp only [daysInMonth, isLeapYear] at h4
    split_ifs at h4 <;> omega
  clear h4
  have hys := jdn_year_step y
  have hcs := cent_step y
  have hc4 := cent4_step y
  have hm : m = 1 ∨ m = 2 ∨ m = 3 ∨ m = 4 ∨ m = 5 ∨ m = 6 ∨ m = 7 ∨ m = 8 ∨ m = 9 ∨
      m = 10 ∨ m = 11 ∨ m = 12 := by omega
  rcases hm with rfl | rfl | rfl | rfl | rfl | rfl | rfl | rfl | rfl | rfl | rfl | rfl
  · simp only [Date.next, daysInMonth, isLeapYear]
    split_ifs <;>
      · simp only [jdn_0h_utc]
        split_ifs <;> omega
  · simp only [Date.next, daysInMonth, isLeapYear]
    split_ifs <;>
      · simp only [jdn_0h_utc]
        split_ifs <;> (split_ifs at hys hcs hc4 <;> omega)
  · simp only [Date.next, daysInMonth, isLeapYear]
    split_ifs <;>
      · simp only [jdn_0h_utc]
        split_ifs <;> omega
  · simp only [Date.next, daysInMonth, isLeapYear]
    split_ifs <;>
      · simp only [jdn_0h_utc]
        split_ifs <;> omega
  · simp only [Date.next, daysInMonth, isLeapYear]
    split_ifs <;>
      · simp only [jdn_0h_utc]
        split_ifs <;> omega
  · simp only [Date.next, daysInMonth, isLeapYear]
    split_ifs <;>
      · simp only [jdn_0h_utc]
        split_ifs <;> omega
  · simp only [Date.next, daysInMonth, isLeapYear]
    split_ifs <;>
      · simp only [jdn_0h_utc]
        split_ifs <;> omega
  · simp only [Date.next, daysInMonth, isLeapYear]
    split_ifs <;>
      · simp only [jdn_0h_utc]
        split_ifs <;> omega
  · simp only [Date.next, daysInMonth, isLeapYear]
    split_ifs <;>
      · simp only [jdn_0h_utc]
        split_ifs <;> omega
  · simp only [Date.next, daysInMonth, isLeapYear]
    split_ifs <;>
      · simp only [jdn_0h_utc]
        split_ifs <;> omega
  · simp only [Date.next, daysInMonth, isLeapYear]
    split_ifs <;>
      · simp only [jdn_0h_utc]
        split_ifs <;> omega
  · simp only [Date.next, daysInMonth, isLeapYear]
    split_ifs <;>
      · simp only [jdn_0h_utc]
        split_ifs <;> omega

/-- Iterating `Date.next` preserves validity. -/
theorem Date.iterate_next_valid {d : Date} (h : d.Valid) (n : Nat) :
    (Date.next^[n] d).Valid := by
  induction n generalizing d with
  | zero => exact h
  | succ k ih =>
    rw [Function.iterate_succ_apply]
    exact ih (Date.next_valid h)

/-- Advancing a valid date by `n` days advances its Julian Day Number by `n`. -/
theorem jdn_iterate_next {d : Date} (h : d.Valid) (n : Nat) :
    jdn_0h_utc (Date.next^[n] d).year (Date.next^[n] d).month (Date.next^[n] d).day =
      jdn_0h_utc d.year d.month d.day + n := by
  induction n generalizing d with
  | zero => simp
  | succ k ih =>
    rw [Function.iterate_succ_apply]
    rw [ih (Date.next_valid h), jdn_next_date h]
    push_cast
    ring

/-- `pillar_day_by_2300(dt_solar)`: `(dt_solar + timedelta(days=1)).date() if
(dt_solar.hour, dt_solar.minute) >= (23,0) else dt_solar.date()`.  The Python
tuple comparison is lexicographic, written out here. -/
def pillar_day_by_2300 (dt : DateTime) : Date :=
  if 23 < dt.hour ∨ (dt.hour = 23 ∧ 0 ≤ dt.minute) then dt.date.next else dt.date

/-- `CHEONGAN[i]` as a string; the callers below always index in range, so the
out-of-range default (Python: `IndexError`) never fires. -/
def stemStrAt (i : Int) : String := ((CHEONGAN.get? i.toNat).map stemChar).getD ""

/-- `JIJI[i]` as a string; always indexed in range by the callers below. -/
def branchStrAt (i : Int) : String := ((JIJI.get? i.toNat).map branchChar).getD ""

/-- `day_ganji_solar(dt_solar, k_anchor)`: the civil date under the 23:00
rule, then `idx60 = (jdn_0h_utc(d) + k_anchor) % 60`, stem `idx60 % 10`,
branch `idx60 % 12`, and the pillar string `CHEONGAN[cidx] + JIJI[jidx]`. -/
def day_ganji_solar (dt : DateTime) (k_anchor : Int) : String × Int × Int :=
  let d := pillar_day_by_2300 dt
  let idx60 := (jdn_0h_utc d.year d.month d.day + k_anchor) % 60
  let cidx := idx60 % 10
  let jidx := idx60 % 12
  (stemStrAt cidx ++ branchStrAt jidx, cidx, jidx)

/-- `hour_branch_idx_2300(dt_solar)`: `((h*60+m − 23*60) mod 1440) div 120`. -/
def hour_branch_idx_2300 (dt : DateTime) : Int :=
  let mins := dt.hour * 60 + dt.minute
  ((mins - 23 * 60) % 1440) / 120

/-- C6: for every solar-time instant (with a well-formed minute field), the
day pillar is computed from the civil date the instant maps to under the
23:00 rule — at or after 23:00 the next civil date, strictly before 23:00 its
own — and the combined index is `(JDN(date) + anchor) mod 60` with stem index
`mod 10` and branch index `mod 12`. -/
theorem day_pillar_rule (dt : DateTime) (k : Int) (hm : 0 ≤ dt.minute) :
    day_ganji_solar dt k =
      ((fun d : Date =>
          (stemStrAt ((jdn_0h_utc d.year d.month d.day + k) % 60 % 10) ++
             branchStrAt ((jdn_0h_utc d.year d.month d.day + k) % 60 % 12),
           (jdn_0h_utc d.year d.month d.day + k) % 60 % 10,
           (jdn_0h_utc d.year d.month d.day + k) % 60 % 12))
        (if 23 ≤ dt.hour then dt.date.next else dt.date)) := by
  have hiff : (23 < dt.hour ∨ (dt.hour = 23 ∧ 0 ≤ dt.minute)) ↔ 23 ≤ dt.hour := by omega
  simp only [day_ganji_solar, pillar_day_by_2300, hiff]

/-- Witness for C6 at 2024-01-01 23:30 with the default anchor 49: the 23:00
rule pushes the pillar to 2024-01-02's. -/
theorem day_pillar_rule_witness :
    (0 : Int) ≤ 30 ∧
      day_ganji_solar ⟨2024, 1, 1, 23, 30⟩ 49 =
        ((fun d : Date =>
            (stemStrAt ((jdn_0h_utc d.year d.month d.day + 49) % 60 % 10) ++
               branchStrAt ((jdn_0h_utc d.year d.month d.day + 49) % 60 % 12),
             (jdn_0h_utc d.year d.month d.day + 49) % 60 % 10,
             (jdn_0h_utc d.year d.month d.day + 49) % 60 % 12))
          (if 23 ≤ (23 : Int) then (Date.mk 2024 1 1).next else Date.mk 2024 1 1)) :=
  ⟨by norm_num, day_pillar_rule ⟨2024, 1, 1, 23, 30⟩ 49 (by norm_num)⟩

/-- The same instant-of-day `n` days later: the date advanced by `n`
applications of `Date.next`, hour and minute unchanged. -/
def DateTime.addDays (dt : DateTime) (n : Nat) : DateTime :=
  let d := Date.next^[n] dt.date
  ⟨d.year, d.month, d.day, dt.hour, dt.minute⟩

set_option maxRecDepth 8000 in
/-- C7: for every valid solar-time instant and every anchor constant, the day
pillar sixty days later is identical: the Julian Day Number grows by exactly
60, so the combined index mod 60 is unchanged, and the 23:00 boundary shift
is the same on both sides. -/
theorem day_pillar_60cycle (dt : DateTime) (k : Int) (h : dt.date.Valid) :
    day_ganji_solar (dt.addDays 60) k = day_ganji_solar dt k := by
  have hdate : (dt.addDays 60).date = Date.next^[60] dt.date := rfl
  have hnext : (Date.next^[60] dt.date).next = Date.next^[60] dt.date.next := by
    calc (Date.next^[60] dt.date).next = Date.next^[61] dt.date :=
          (Function.iterate_succ_apply' Date.next 60 dt.date).symm
    _ = Date.next^[60] dt.date.next := Function.iterate_succ_apply Date.next 60 dt.date
  have hmod : ∀ j : Int, (j + 60 + k) % 60 = (j + k) % 60 := by
    intro j; omega
  simp only [day_ganji_solar, pillar_day_by_2300, DateTime.addDays, DateTime.date] at *
  split_ifs with h1
  · simp only [hnext]
    rw [jdn_iterate_next (Date.next_valid h) 60]
    norm_num [hmod]
  · rw [jdn_iterate_next h 60]
    norm_num [hmod]

set_option maxRecDepth 8000 in
/-- Witness for C7 at 2024-01-01 12:00, anchor 49. -/
theorem day_pillar_60cycle_witness :
    Date.Valid ⟨2024, 1, 1⟩ ∧
      day_ganji_solar (DateTime.addDays ⟨2024, 1, 1, 12, 0⟩ 60) 49 =
        day_ganji_solar ⟨2024, 1, 1, 12, 0⟩ 49 :=
  ⟨by decide, day_pillar_60cycle ⟨2024, 1, 1, 12, 0⟩ 49 (by decide)⟩


/-! ## Solar-time normalization (`to_solar_time`, `apply_longitude_correction`) -/

/-- An offset-aware wall-clock instant at minute resolution: `wall` is the
wall-clock reading in minutes and `off` the UTC offset in minutes
(`off = none` models a naive datetime, whose `utcoffset()` is `None`; the
application's offsets are whole minutes).  Adding a `timedelta` moves the
wall reading and keeps the `tzinfo`, exactly as Python datetime arithmetic
does. -/
structure AwareDT where
  wall : Int
  off : Option Int
deriving DecidableEq, Repr

/-- `BASE_MIN = 8 * 60 + 30` — the +08:30 reference offset in minutes. -/
def BASE_MIN : Int := 8 * 60 + 30

/-- `to_solar_time(dt_local)`: raise `ValueError` when `utcoffset()` is
`None`, else subtract `off_min - BASE_MIN` minutes. -/
def to_solar_time (dt_local : AwareDT) : Except String AwareDT :=
  match dt_local.off with
  | none => .error "dt_local must be timezone-aware"
  | some off_min =>
    let delta := off_min - BASE_MIN
    .ok ⟨dt_local.wall - delta, dt_local.off⟩

/-- Shift an aware instant by `m` minutes (Python `dt + timedelta(minutes=m)`). -/
def AwareDT.addMinutes (dt : AwareDT) (m : Int) : AwareDT := ⟨dt.wall + m, dt.off⟩

/-- C4: for every timezone-aware instant with any offset, `to_solar_time`
shifts it by exactly `-(offset_minutes - 510)` minutes — so re-applying the
inverse offset difference recovers the original instant exactly — and for an
offset-naive instant it raises a validation error instead of computing. -/
theorem to_solar_time_roundtrip :
    ∀ dt : AwareDT,
      (∀ o : Int, dt.off = some o →
        to_solar_time dt = .ok (dt.addMinutes (-(o - BASE_MIN))) ∧
        (to_solar_time dt).map (fun s => s.addMinutes (o - BASE_MIN)) = .ok dt) ∧
      (dt.off = none → to_solar_time dt = .error "dt_local must be timezone-aware") := by
  rintro ⟨w, off⟩
  constructor
  · rintro o rfl
    refine ⟨?_, ?_⟩
    · simp only [to_solar_time, AwareDT.addMinutes, Except.ok.injEq, AwareDT.mk.injEq, BASE_MIN]
      exact ⟨by omega, trivial⟩
    · simp only [to_solar_time, AwareDT.addMinutes, Except.map, Except.ok.injEq,
        AwareDT.mk.injEq, BASE_MIN]
      exact ⟨by omega, trivial⟩
  · rintro rfl
    rfl

/-- Witness for C4: a KST instant (offset +09:00 = 540 min) shifts back by 30
minutes and round-trips; a naive instant errors. -/
theorem to_solar_time_roundtrip_witness :
    (to_solar_time ⟨1000, some 540⟩ =
        .ok (AwareDT.addMinutes ⟨1000, some 540⟩ (-(540 - BASE_MIN))) ∧
      (to_solar_time ⟨1000, some 540⟩).map
          (fun s => s.addMinutes (540 - BASE_MIN)) = .ok ⟨1000, some 540⟩) ∧
    to_solar_time ⟨7, none⟩ = .error "dt_local must be timezone-aware" :=
  ⟨(to_solar_time_roundtrip ⟨1000, some 540⟩).1 540 rfl,
   (to_solar_time_roundtrip ⟨7, none⟩).2 rfl⟩

/-- `BASE_MERIDIAN = 127.5` — the +08:30 reference meridian in degrees. -/
def BASE_MERIDIAN : ℚ := 127.5

/-- `DEG2MIN = 4.0` — minutes of time per degree of longitude. -/
def DEG2MIN : ℚ := 4

/-- `apply_longitude_correction(dt_solar, city_lon)`: identity when
`city_lon is None`, else shift by `(BASE_MERIDIAN - city_lon) * DEG2MIN`
minutes.  Instants are minute counts (rational, since the correction can be a
fractional number of minutes). -/
def apply_longitude_correction (dt_solar : ℚ) (city_lon : Option ℚ) : ℚ :=
  match city_lon with
  | none => dt_solar
  | some lon => dt_solar + (BASE_MERIDIAN - lon) * DEG2MIN

/-- C10: applying the longitude correction with no location longitude
(`city_lon = None`) is the identity — omitting the optional longitude step
leaves the +08:30 base solar time completely unchanged. -/
theorem apply_longitude_correction_none_id :
    ∀ t : ℚ, apply_longitude_correction t none = t := fun _ => rfl


/-! ## The term-instant root finder `find_longitude_time_local`

Instants are modelled as microsecond counts (Python datetime resolution);
`astimezone(...)` calls preserve the instant and are no-ops here.  The
longitude oracle `f` stands for `lambda dt: _wrap180(solar_longitude_deg(dt)
- target_deg)` — transcendental floating-point math abstracted as an
arbitrary function, so the theorems below hold for every oracle.  The
source's `year` parameter is never used in the function body, and
`target_deg` enters only through `f`. -/

/-- Python `timedelta / 2`: exact halving rounded to the nearest microsecond,
ties to even. -/
def tdHalf (d : Int) : Int :=
  if d % 2 = 0 then d / 2
  else if (d / 2) % 2 = 0 then d / 2 else d / 2 + 1

/-- Microseconds per hour. -/
def HOUR_US : Int := 3600000000

/-- Microseconds per day. -/
def DAY_US : Int := 86400000000

/-- Microseconds per minute. -/
def MINUTE_US : Int := 60000000

/-- The forward-scanning bracket loop (`while scan < b: ...`), with explicit
fuel; the caller passes fuel exceeding the loop's iteration count
`(b - a)/step`, so the fuel never runs out before `scan < b` fails. -/
def scanLoop (f : Int → ℚ) (b step : Int) : Nat → Int → ℚ → Option (Int × Int)
  | 0, _, _ => none
  | fuel+1, scan, fa =>
    if scan < b then
      let scan2 := scan + step
      let fb := f scan2
      if fa = 0 ∨ fb = 0 ∨ (fa < 0 ∧ 0 < fb) ∨ (0 < fa ∧ fb < 0) then some (scan, scan2)
      else scanLoop f b step fuel scan2 fb
    else none

/-- The 70-iteration bisection loop (`for _ in range(70)`); `break` at an
exact zero returns the collapsed bracket `(mid, mid)`. -/
def bisectLoop (f : Int → ℚ) : Nat → Int → Int → Int × Int
  | 0, a, b => (a, b)
  | n+1, a, b =>
    let mid := a + tdHalf (b - a)
    let fm := f mid
    let fa := f a
    if fm = 0 then (mid, mid)
    else if (fa ≤ 0 ∧ 0 ≤ fm) ∨ (0 ≤ fa ∧ fm ≤ 0) then bisectLoop f n a mid
    else bisectLoop f n mid b

/-- Everything of `find_longitude_time_local` before its final line: scan a
±3-day window in 6-hour steps for a sign change, fall back to a ±1-day
bracket, bisect 70 times, and return the final bracket midpoint
`a + (b - a)/2`. -/
def find_longitude_raw (f : Int → ℚ) (approx_dt_local : Int) : Int :=
  let a0 := approx_dt_local - 3 * DAY_US
  let b0 := approx_dt_local + 3 * DAY_US
  let step := 6 * HOUR_US
  let fuel := ((b0 - a0) / step).toNat + 2
  let br :=
    match scanLoop f b0 step fuel a0 (f a0) with
    | some p => p
    | none => (approx_dt_local - DAY_US, approx_dt_local + DAY_US)
  let fin := bisectLoop f 70 br.1 br.2
  fin.1 + tdHalf (fin.2 - fin.1)

/-- `find_longitude_time_local`: the final line
`return res.replace(second=0, microsecond=0)` zeroes the wall-clock second
and microsecond fields; with the whole-minute KST offset that is exactly
flooring the absolute time to the minute. -/
def find_longitude_time_local (f : Int → ℚ) (approx_dt_local : Int) : Int :=
  let res := find_longitude_raw f approx_dt_local
  res - res % MINUTE_US

/-- Modelled from the spec: "round the result to the nearest minute" — the
nearest minute to an instant, halves rounding up (any nearest-minute rounding
agrees on the counterexample below, whose sub-minute part is ≈45 s). -/
def nearest_minute (t : Int) : Int := MINUTE_US * ((t + 30000000) / MINUTE_US)

/-- A concrete longitude oracle: a sign step at 45 s past the epoch. -/
def stepOracle (t : Int) : ℚ := if t < 45000000 then -1 else 1

/-- C8 counterexample: for the step oracle with guess 0, the final bracket
midpoint is 44999999 μs (44.999999 s past the minute), the claimed
nearest-minute rounding of it is 60000000 μs, but the function returns 0 —
the sub-minute part is discarded (truncated), not rounded. -/
theorem find_longitude_rounding_counterexample :
    find_longitude_raw stepOracle 0 = 44999999 ∧
    nearest_minute (find_longitude_raw stepOracle 0) = 60000000 ∧
    find_longitude_time_local stepOracle 0 = 0 ∧
    find_longitude_time_local stepOracle 0 ≠
      nearest_minute (find_longitude_raw stepOracle 0) := by
  refine ⟨by decide, by decide, by decide, by decide⟩

/-- C8 (amended): for every longitude oracle and guess instant, the root
finder returns the final bracket midpoint truncated to the whole minute —
the sub-minute part (up to 59.999999 s) is discarded, never rounded up. -/
theorem find_longitude_truncates (f : Int → ℚ) (approx : Int) :
    find_longitude_time_local f approx =
      find_longitude_raw f approx - find_longitude_raw f approx % MINUTE_US ∧
    find_longitude_time_local f approx % MINUTE_US = 0 ∧
    0 ≤ find_longitude_raw f approx - find_longitude_time_local f approx ∧
    find_longitude_raw f approx - find_longitude_time_local f approx < MINUTE_US := by
  refine ⟨rfl, ?_, ?_, ?_⟩ <;>
    · simp only [find_longitude_time_local, MINUTE_US]
      omega


/-! ## The term-table builder (`jie_times_from_kasi_or_calc` and the
24-term variant)

The external KASI collaborator is abstracted as two functions returning
`Except` (a thrown exception is `.error ()`); its date strings ("YYYYMMDD",
"HH:MM") are carried in parsed form (`Date`, hour/minute pairs; an empty
time-of-day string is `none`).  The root finder is abstracted as a function
`year → degree → guess → instant` (its internals are modelled above at
microsecond resolution); term tables are association lists, as Python dicts
with string keys. -/

/-- A row of `kasi_get_monthly_events`: title, time-of-day (`none` for the
empty string) and date. -/
structure KasiEvent where
  title : String
  time : Option (Int × Int)
  locdate : Date
deriving DecidableEq, Repr

/-- The external term-source collaborator:
`getDates year names` models `kasi_get_24divisions_dates(year, key, names)`
and `getMonthly year month` models
`kasi_get_monthly_events(year, month, key)`. -/
structure Collab where
  getDates : Int → List String → Except Unit (List (String × Date))
  getMonthly : Int → Int → Except Unit (List KasiEvent)

/-- The root finder as consumed here: `find_longitude_time_local(year,
target_deg, approx)` (the `year` argument is unused by its body). -/
def RootFinder : Type := Int → Int → DateTime → DateTime

/-- Python dict lookup `d.get(k)` / `d[k]` on an association list. -/
def lookupA {α : Type} (l : List (String × α)) (k : String) : Option α :=
  (l.find? (fun p => p.1 = k)).map (fun p => p.2)

/-- Python dict store `d[k] = v` on an association list. -/
def updateA {α : Type} (l : List (String × α)) (k : String) (v : α) : List (String × α) :=
  if (l.find? (fun p => p.1 = k)).isSome
  then l.map (fun p => if p.1 = k then (k, v) else p)
  else l ++ [(k, v)]

/-- `JIE_DEGREES` — target longitude of each of the 12 major terms. -/
def JIE_DEGREES : List (String × Int) :=
  [("입춘", 315), ("경칩", 345), ("청명", 15), ("입하", 45), ("망종", 75), ("소서", 105),
   ("입추", 135), ("백로", 165), ("한로", 195), ("입동", 225), ("대설", 255), ("소한", 285)]

/-- `JIE_ORDER` — the 12 major term names in order. -/
def JIE_ORDER : List String :=
  ["입춘", "경칩", "청명", "입하", "망종", "소서", "입추", "백로", "한로", "입동", "대설", "소한"]

/-- `JIE24_DEGREES` — target longitude of each of the 24 solar terms. -/
def JIE24_DEGREES : List (String × Int) :=
  [("입춘", 315), ("우수", 330), ("경칩", 345), ("춘분", 0), ("청명", 15), ("곡우", 30),
   ("입하", 45), ("소만", 60), ("망종", 75), ("하지", 90), ("소서", 105), ("대서", 120),
   ("입추", 135), ("처서", 150), ("백로", 165), ("추분", 180), ("한로", 195), ("상강", 210),
   ("입동", 225), ("소설", 240), ("대설", 255), ("동지", 270), ("소한", 285), ("대한", 300)]

/-- `JIE24_ORDER` — the 24 solar term names in order. -/
def JIE24_ORDER : List String :=
  ["입춘", "우수", "경칩", "춘분", "청명", "곡우", "입하", "소만", "망종", "하지", "소서",
   "대서", "입추", "처서", "백로", "추분", "한로", "상강", "입동", "소설", "대설", "동지",
   "소한", "대한"]

/-- `approx_guess_local(year)`: rough 09:00 seeds for the 12 major terms plus
the previous year's 대설. -/
def approx_guess_local (year : Int) : List (String × DateTime) :=
  [("입춘", ⟨year, 2, 4, 9, 0⟩), ("경칩", ⟨year, 3, 6, 9, 0⟩), ("청명", ⟨year, 4, 5, 9, 0⟩),
   ("입하", ⟨year, 5, 6, 9, 0⟩), ("망종", ⟨year, 6, 6, 9, 0⟩), ("소서", ⟨year, 7, 7, 9, 0⟩),
   ("입추", ⟨year, 8, 8, 9, 0⟩), ("백로", ⟨year, 9, 8, 9, 0⟩), ("한로", ⟨year, 10, 8, 9, 0⟩),
   ("입동", ⟨year, 11, 7, 9, 0⟩), ("대설", ⟨year, 12, 7, 9, 0⟩), ("소한", ⟨year, 1, 6, 9, 0⟩),
   ("(전년)대설", ⟨year - 1, 12, 7, 9, 0⟩)]

/-- `approx_guess_local_24(year)`: rough 09:00 seeds for the 24 terms. -/
def approx_guess_local_24 (year : Int) : List (String × DateTime) :=
  [("입춘", ⟨year, 2, 4, 9, 0⟩), ("우수", ⟨year, 2, 19, 9, 0⟩), ("경칩", ⟨year, 3, 6, 9, 0⟩),
   ("춘분", ⟨year, 3, 21, 9, 0⟩), ("청명", ⟨year, 4, 5, 9, 0⟩), ("곡우", ⟨year, 4, 20, 9, 0⟩),
   ("입하", ⟨year, 5, 6, 9, 0⟩), ("소만", ⟨year, 5, 21, 9, 0⟩), ("망종", ⟨year, 6, 6, 9, 0⟩),
   ("하지", ⟨year, 6, 21, 9, 0⟩), ("소서", ⟨year, 7, 7, 9, 0⟩), ("대서", ⟨year, 7, 23, 9, 0⟩),
   ("입추", ⟨year, 8, 8, 9, 0⟩), ("처서", ⟨year, 8, 23, 9, 0⟩), ("백로", ⟨year, 9, 8, 9, 0⟩),
   ("추분", ⟨year, 9, 23, 9, 0⟩), ("한로", ⟨year, 10, 8, 9, 0⟩), ("상강", ⟨year, 10, 23, 9, 0⟩),
   ("입동", ⟨year, 11, 7, 9, 0⟩), ("소설", ⟨year, 11, 22, 9, 0⟩), ("대설", ⟨year, 12, 7, 9, 0⟩),
   ("동지", ⟨year, 12, 22, 9, 0⟩), ("소한", ⟨year, 1, 6, 9, 0⟩), ("대한", ⟨year, 1, 20, 9, 0⟩)]

/-- `compute_jie_times_calc(year)`: the fully computed 12-term table — every
major term via the root finder at its rough seed, plus `(전년)대설` computed
for `year - 1`. -/
def compute_jie_times_calc (rf : RootFinder) (year : Int) :
    Option (List (String × DateTime)) := do
  let terms ← JIE_ORDER.foldlM (fun (terms : List (String × DateTime)) name => do
    let deg ← lookupA JIE_DEGREES name
    let guess ← lookupA (approx_guess_local year) name
    pure (updateA terms name (rf year deg guess))) []
  let deg ← lookupA JIE_DEGREES "대설"
  let guess ← lookupA (approx_guess_local year) "(전년)대설"
  pure (updateA terms "(전년)대설" (rf (year - 1) deg guess))

/-- `compute_jie24_times_calc(year)`: the fully computed 24-term table; note
the source passes `approx.year` (not `year`) to the root finder. -/
def compute_jie24_times_calc (rf : RootFinder) (year : Int) :
    Option (List (String × DateTime)) :=
  JIE24_ORDER.foldlM (fun (out : List (String × DateTime)) name => do
    let deg ← lookupA JIE24_DEGREES name
    let approx ← lookupA (approx_guess_local_24 year) name
    pure (updateA out name (rf approx.year deg approx))) []

/-- Python truthiness of the `service_key : str | None` parameter
(`if not service_key:`): `None` and the empty string are falsy. -/
def keyTruthy : Option String → Bool
  | none => false
  | some s => !(s = "")

/-- Month-keyed cache lookup (`monthly_cache`). -/
def cacheLookup (cache : List (Int × List KasiEvent)) (m : Int) :
    Option (List KasiEvent) :=
  (cache.find? (fun p => p.1 = m)).map (fun p => p.2)

/-- The shared per-term body of the KASI merge loop: consult the dict of
collaborator dates, backfill a missing term via the root finder at its rough
seed, attach an exact time-of-day from the (cached) monthly events, or
root-find from noon of the collaborator's date. -/
def kasiMergeStep (rf : RootFinder) (collab : Collab) (year : Int)
    (name_to_date : List (String × Date))
    (st : List (Int × List KasiEvent) × List (String × DateTime)) (name : String) :
    Option (List (Int × List KasiEvent) × List (String × DateTime)) :=
  let cache := st.1
  let terms := st.2
  let tname := if name = "(전년)대설" then "대설" else name
  match lookupA name_to_date name with
  | none => do
    let gy := if name = "(전년)대설" then year - 1 else year
    let approx ← lookupA (approx_guess_local gy) name
    let deg ← lookupA JIE_DEGREES tname
    pure (cache, updateA terms name (rf gy deg approx))
  | some ymd => do
    let m := ymd.month
    let ec :=
      match cacheLookup cache m with
      | some evs => (evs, cache)
      | none =>
        let evs := match collab.getMonthly ymd.year m with
          | .ok l => l
          | .error _ => []
        (evs, cache ++ [(m, evs)])
    let events := ec.1
    let cache1 := ec.2
    let hit := events.findSome? (fun ev =>
      if ev.title = tname ∧ ev.locdate = ymd then ev.time else none)
    match hit with
    | some hm =>
      -- _merge_date_time_local(ymd, hit)
      pure (cache1, updateA terms name (⟨ymd.year, ymd.month, ymd.day, hm.1, hm.2⟩ : DateTime))
    | none => do
      let approx : DateTime := ⟨ymd.year, ymd.month, ymd.day, 12, 0⟩
      let deg ← lookupA JIE_DEGREES tname
      let year_for := if name = "(전년)대설" then ymd.year - 1 else ymd.year
      pure (cache1, updateA terms name (rf year_for deg approx))

/-- `jie_times_from_kasi_or_calc(year, service_key)`: without a truthy key,
or when the collaborator throws, or when it covers fewer than 10 of the 12
major term names, return the fully computed table; otherwise merge the
collaborator's dates (plus the previous year's 대설) with monthly-event
times, backfilling via the root finder. -/
def jie_times_from_kasi_or_calc (rf : RootFinder) (collab : Collab) (year : Int)
    (service_key : Option String) : Option (List (String × DateTime)) :=
  if !(keyTruthy service_key) then compute_jie_times_calc rf year
  else
    match collab.getDates year JIE_ORDER with
    | .error _ => compute_jie_times_calc rf year
    | .ok name_to_date =>
      if ((name_to_date.map (fun p => p.1)).filter (fun n => n ∈ JIE_ORDER)).length < 10 then
        compute_jie_times_calc rf year
      else
        let name_to_date :=
          match collab.getDates (year - 1) JIE_ORDER with
          | .error _ => name_to_date
          | .ok prev =>
            match lookupA prev "대설" with
            | some dsl => updateA name_to_date "(전년)대설" dsl
            | none => name_to_date
        ((JIE_ORDER ++ ["(전년)대설"]).foldlM
          (kasiMergeStep rf collab year name_to_date) ([], [])).map (fun st => st.2)

/-- The per-term body of the 24-term merge loop. -/
def kasi24MergeStep (rf : RootFinder) (collab : Collab) (year : Int)
    (name_to_date : List (String × Date))
    (st : List (Int × List KasiEvent) × List (String × DateTime)) (name : String) :
    Option (List (Int × List KasiEvent) × List (String × DateTime)) :=
  let cache := st.1
  let terms := st.2
  match lookupA name_to_date name with
  | none => do
    let approx ← lookupA (approx_guess_local_24 year) name
    let deg ← lookupA JIE24_DEGREES name
    pure (cache, updateA terms name (rf year deg approx))
  | some ymd => do
    let m := ymd.month
    let ec :=
      match cacheLookup cache m with
      | some evs => (evs, cache)
      | none =>
        let evs := match collab.getMonthly ymd.year m with
          | .ok l => l
          | .error _ => []
        (evs, cache ++ [(m, evs)])
    let events := ec.1
    let cache1 := ec.2
    let hit := events.findSome? (fun ev =>
      if ev.title = name ∧ ev.locdate = ymd then ev.time else none)
    match hit with
    | some hm =>
      pure (cache1, updateA terms name (⟨ymd.year, ymd.month, ymd.day, hm.1, hm.2⟩ : DateTime))
    | none => do
      let approx : DateTime := ⟨ymd.year, ymd.month, ymd.day, 12, 0⟩
      let deg ← lookupA JIE24_DEGREES name
      pure (cache1, updateA terms name (rf ymd.year deg approx))

/-- `jie24_times_from_kasi_or_calc(year, service_key)`: the 24-term variant,
with acceptance threshold 18 of 24. -/
def jie24_times_from_kasi_or_calc (rf : RootFinder) (collab : Collab) (year : Int)
    (service_key : Option String) : Option (List (String × DateTime)) :=
  if !(keyTruthy service_key) then compute_jie24_times_calc rf year
  else
    match collab.getDates year JIE24_ORDER with
    | .error _ => compute_jie24_times_calc rf year
    | .ok name_to_date =>
      if ((name_to_date.map (fun p => p.1)).filter (fun n => n ∈ JIE24_ORDER)).length < 18 then
        compute_jie24_times_calc rf year
      else
        (JIE24_ORDER.foldlM
          (kasi24MergeStep rf collab year name_to_date) ([], [])).map (fun st => st.2)

/-- C9: for every year, root finder and collaborator behaviour, if the
collaborator throws, or returns fewer than 10 of the 12 major term names
(respectively fewer than 18 of the 24 solar term names), the term-table
builder returns exactly the fully computed (root-finding) term table for that
year; the collaborator's error value is never propagated to the caller. -/
theorem term_table_fallback (rf : RootFinder) (collab : Collab) (year : Int)
    (key : Option String) :
    ((collab.getDates year JIE_ORDER = .error () ∨
        ∀ m, collab.getDates year JIE_ORDER = .ok m →
          ((m.map (fun p => p.1)).filter (fun n => n ∈ JIE_ORDER)).length < 10) →
      jie_times_from_kasi_or_calc rf collab year key = compute_jie_times_calc rf year) ∧
    ((collab.getDates year JIE24_ORDER = .error () ∨
        ∀ m, collab.getDates year JIE24_ORDER = .ok m →
          ((m.map (fun p => p.1)).filter (fun n => n ∈ JIE24_ORDER)).length < 18) →
      jie24_times_from_kasi_or_calc rf collab year key = compute_jie24_times_calc rf year) := by
  constructor
  · intro h
    unfold jie_times_from_kasi_or_calc
    split
    · rfl
    · rcases hcall : collab.getDates year JIE_ORDER with e | m
      · simp [hcall]
      · rcases h with h | h
        · rw [hcall] at h
          exact absurd h (by simp)
        · have hc := h m hcall
          simp [hcall, if_pos hc]
  · intro h
    unfold jie24_times_from_kasi_or_calc
    split
    · rfl
    · rcases hcall : collab.getDates year JIE24_ORDER with e | m
      · simp [hcall]
      · rcases h with h | h
        · rw [hcall] at h
          exact absurd h (by simp)
        · have hc := h m hcall
          simp [hcall, if_pos hc]

/-- Witness for C9: a collaborator that always throws, with a truthy key;
both builders return the computed tables. -/
theorem term_table_fallback_witness :
    (jie_times_from_kasi_or_calc (fun _ _ a => a)
        ⟨fun _ _ => .error (), fun _ _ => .error ()⟩ 2024 (some "k") =
      compute_jie_times_calc (fun _ _ a => a) 2024) ∧
    (jie24_times_from_kasi_or_calc (fun _ _ a => a)
        ⟨fun _ _ => .error (), fun _ _ => .error ()⟩ 2024 (some "k") =
      compute_jie24_times_calc (fun _ _ a => a) 2024) :=
  ⟨(term_table_fallback (fun _ _ a => a) ⟨fun _ _ => .error (), fun _ _ => .error ()⟩
      2024 (some "k")).1 (Or.inl rfl),
   (term_table_fallback (fun _ _ a => a) ⟨fun _ _ => .error (), fun _ _ => .error ()⟩
      2024 (some "k")).2 (Or.inl rfl)⟩


/-! ## The four-pillar engine (`four_pillars_from_solar`) and the decade
cycle (`build_dayun_list_indices`) -/

/-- The previous civil date — Python `date - timedelta(days=1)`. -/
def Date.prev (d : Date) : Date :=
  if 1 < d.day then ⟨d.year, d.month, d.day - 1⟩
  else if 1 < d.month then ⟨d.year, d.month - 1, daysInMonth d.year (d.month - 1)⟩
  else ⟨d.year - 1, 12, 31⟩

/-- Python `datetime ± timedelta(minutes=mins)` for shifts within one day
(the engine only shifts by ±30 minutes here). -/
def dtAddMinutes (dt : DateTime) (mins : Int) : DateTime :=
  let t := dt.hour * 60 + dt.minute + mins
  if t < 0 then
    let p := Date.prev ⟨dt.year, dt.month, dt.day⟩
    ⟨p.year, p.month, p.day, (t + 1440) / 60, (t + 1440) % 60⟩
  else if 1440 ≤ t then
    let n := Date.next ⟨dt.year, dt.month, dt.day⟩
    ⟨n.year, n.month, n.day, (t - 1440) / 60, (t - 1440) % 60⟩
  else ⟨dt.year, dt.month, dt.day, t / 60, t % 60⟩

/-- `to_solar_time` applied to a structured wall-clock value carrying a
whole-minute UTC offset `off_min` (the term tables carry `LOCAL_TZ` = +09:00,
i.e. 540): subtract `off_min - BASE_MIN` minutes. -/
def to_solar_time_dt (off_min : Int) (dt : DateTime) : DateTime :=
  dtAddMinutes dt (-(off_min - BASE_MIN))

/-- Python `datetime` strict comparison (same offset): lexicographic on the
fields. -/
def dtLtb (a b : DateTime) : Bool :=
  if a.year ≠ b.year then decide (a.year < b.year)
  else if a.month ≠ b.month then decide (a.month < b.month)
  else if a.day ≠ b.day then decide (a.day < b.day)
  else if a.hour ≠ b.hour then decide (a.hour < b.hour)
  else decide (a.minute < b.minute)

/-- Python `datetime` non-strict comparison. -/
def dtLeb (a b : DateTime) : Bool := dtLtb a b || decide (a = b)

/-- Stable insertion into a sorted list (stability of Python `list.sort`). -/
def insertSorted {α : Type} (le : α → α → Bool) (x : α) : List α → List α
  | [] => [x]
  | y :: ys => if le x y then x :: y :: ys else y :: insertSorted le x ys

/-- A stable sort, modelling Python's stable `list.sort(key=...)`. -/
def insertionSort {α : Type} (le : α → α → Bool) : List α → List α
  | [] => []
  | x :: xs => insertSorted le x (insertionSort le xs)

/-- The dictionary `JIE_TO_MONTH_JI`: major term name → month branch. -/
def JIE_TO_MONTH_JI : List (String × Branch) :=
  [("입춘", inB), ("경칩", myo), ("청명", jin), ("입하", sa), ("망종", oh), ("소서", mi),
   ("입추", sinB), ("백로", yu), ("한로", sul), ("입동", hae), ("대설", ja), ("소한", chuk),
   ("(전년)대설", ja)]

/-- `month_start_gan_idx(year_gan_idx) = ((year_gan_idx % 5) * 2 + 2) % 10`. -/
def month_start_gan_idx (year_gan_idx : Int) : Int :=
  ((year_gan_idx % 5) * 2 + 2) % 10

/-- The dictionary `SIDU_START`: day-stem pair → starting hour stem. -/
def SIDU_START : List ((Stem × Stem) × Stem) :=
  [((gap, gi), gap), ((eul, gyeong), byeong), ((byeong, sinS), mu),
   ((jeong, im), gyeong), ((mu, gye), im)]

/-- `sidu_zi_start_gan(day_gan)`: scan `SIDU_START` for the pair containing
the day stem (`ValueError`, i.e. `none`, if absent — never for a real stem). -/
def sidu_zi_start_gan (day_gan : Stem) : Option Stem :=
  (SIDU_START.find? (fun p => day_gan = p.1.1 ∨ day_gan = p.1.2)).map (fun p => p.2)

/-- `CHEONGAN[i]` (Python `IndexError` out of range modelled as `none`). -/
def stemOfIdx (i : Int) : Option Stem := CHEONGAN.get? i.toNat

/-- `JIJI[i]`. -/
def branchOfIdx (i : Int) : Option Branch := JIJI.get? i.toNat

/-- The `for name, t in order: if dt_solar >= t: last = name else: break`
loop selecting the latest term at or before the queried instant. -/
def lastTermBefore (dt : DateTime) : List (String × DateTime) → String → String
  | [], last => last
  | (n, t) :: rest, last => if dtLeb t dt then lastTermBefore dt rest n else last

/-- The `FourPillars` dataclass of the source. -/
structure FourPillars where
  year_pillar : String
  month_pillar : String
  day_pillar : String
  hour_pillar : String
  ipchun_solar : DateTime
  y_gidx : Int
  m_gidx : Int
  m_bidx : Int
deriving DecidableEq, Repr

/-- `four_pillars_from_solar(dt_solar, k_anchor, service_key)`, over the
abstract root finder and collaborator of the term-table builder.  Failing
dictionary/list lookups (which cannot occur: the built term table contains
all 13 names, the indices are reduced modulo the list lengths, and every stem
occurs in `SIDU_START`) are `Option` failures. -/
def four_pillars_from_solar (rf : RootFinder) (collab : Collab) (dt_solar : DateTime)
    (k_anchor : Int) (service_key : Option String) : Option FourPillars := do
  let jie_raw ← jie_times_from_kasi_or_calc rf collab dt_solar.year service_key
  let jie_solar ← some (jie_raw.map (fun p => (p.1, to_solar_time_dt 540 p.2)))
  let ipchun ← lookupA jie_solar "입춘"
  let y ← some (if dtLtb dt_solar ipchun then dt_solar.year - 1 else dt_solar.year)
  let y_gidx ← some ((y - 4) % 10)
  let y_jidx ← some ((y - 4) % 12)
  let yg ← stemOfIdx y_gidx
  let yj ← branchOfIdx y_jidx
  let year_pillar ← some (stemChar yg ++ branchChar yj)
  let order0 ← JIE_ORDER.mapM (fun n => (lookupA jie_solar n).map (fun t => (n, t)))
  let pd ← lookupA jie_solar "(전년)대설"
  let order ← some (insertionSort (fun a b => dtLeb a.2 b.2) (order0 ++ [("(전년)대설", pd)]))
  let last ← some (lastTermBefore dt_solar order "(전년)대설")
  let m_branch ← lookupA JIE_TO_MONTH_JI last
  let m_bidxN ← List.findIdx? (fun b => b == m_branch) MONTH_JI
  let m_bidx ← some ((m_bidxN : Int))
  let m_gidx ← some ((month_start_gan_idx y_gidx + m_bidx) % 10)
  let mg ← stemOfIdx m_gidx
  let month_pillar ← some (stemChar mg ++ branchChar m_branch)
  let dayRes ← some (day_ganji_solar dt_solar k_anchor)
  let h_j_idx ← some (hour_branch_idx_2300 dt_solar)
  let dayGan ← stemOfIdx dayRes.2.1
  let zi_start ← sidu_zi_start_gan dayGan
  let zsIdx ← List.findIdx? (fun g => g == zi_start) CHEONGAN
  let h_c_idx ← some (((zsIdx : Int) + h_j_idx) % 10)
  let hg ← stemOfIdx h_c_idx
  let hj ← branchOfIdx h_j_idx
  let hour_pillar ← some (stemChar hg ++ branchChar hj)
  pure ⟨year_pillar, month_pillar, dayRes.1, hour_pillar, ipchun, y_gidx, m_gidx, m_bidx⟩

/-- One decade-cycle entry (`{"start_age": ..., "g_idx": ..., "b_idx": ...}`). -/
structure DayunItem where
  start_age : Int
  g_idx : Int
  b_idx : Int
deriving DecidableEq, Repr

/-- `build_dayun_list_indices(month_gidx, month_bidx, forward, start_age,
count)`: entries `i = 1..count` stepping the month stem/branch indices by
±1. -/
def build_dayun_list_indices (month_gidx month_bidx : Int) (forward : Bool)
    (start_age : Int) (count : Nat) : List DayunItem :=
  let dirv : Int := if forward then 1 else -1
  (List.range count).map (fun i0 =>
    let i : Int := (i0 : Int) + 1
    ⟨start_age + (i - 1) * 10, (month_gidx + dirv * i) % 10, (month_bidx + dirv * i) % 12⟩)

/-- How the decade strip renders an entry:
`CHEONGAN[item["g_idx"]] + MONTH_JI[item["b_idx"]]`. -/
def dayunPillar (it : DayunItem) : Option String := do
  let g ← CHEONGAN.get? it.g_idx.toNat
  let b ← MONTH_JI.get? it.b_idx.toNat
  pure (stemChar g ++ branchChar b)

/-- The sexagenary parity invariant for a rendered pillar string: it is some
stem character followed by some branch character whose indices (stem in
`CHEONGAN`, branch in the 12-branch `JIJI` order) agree modulo 2. -/
def PillarParityOK (s : String) : Prop :=
  ∃ g : Stem, ∃ b : Branch, s = stemChar g ++ branchChar b ∧ stemIdx g % 2 = branchIdx b % 2

theorem stemOfIdx_exists {i : Int} (h0 : 0 ≤ i) (h10 : i < 10) :
    ∃ g : Stem, stemOfIdx i = some g ∧ (stemIdx g : Int) = i := by
  interval_cases i <;> exact ⟨_, rfl, rfl⟩

theorem branchOfIdx_exists {i : Int} (h0 : 0 ≤ i) (h12 : i < 12) :
    ∃ b : Branch, branchOfIdx i = some b ∧ (branchIdx b : Int) = i := by
  interval_cases i <;> exact ⟨_, rfl, rfl⟩

theorem monthJiGet_exists {i : Int} (h0 : 0 ≤ i) (h12 : i < 12) :
    ∃ b : Branch, MONTH_JI.get? i.toNat = some b ∧ (branchIdx b : Int) = (i + 2) % 12 := by
  interval_cases i <;> exact ⟨_, rfl, by decide⟩

theorem month_ji_findIdx (b : Branch) :
    List.findIdx? (fun x => x == b) MONTH_JI = some ((branchIdx b + 10) % 12) := by
  cases b <;> rfl

theorem cheongan_findIdx (z : Stem) :
    List.findIdx? (fun x => x == z) CHEONGAN = some (stemIdx z) := by
  cases z <;> rfl

theorem sidu_even : ∀ g z : Stem, sidu_zi_start_gan g = some z → stemIdx z % 2 = 0 := by
  decide

theorem day_ganji_parity (dt : DateTime) (k : Int) :
    PillarParityOK (day_ganji_solar dt k).1 := by
  obtain ⟨g, hg, hgi⟩ := stemOfIdx_exists
    (i := (jdn_0h_utc (pillar_day_by_2300 dt).year (pillar_day_by_2300 dt).month
      (pillar_day_by_2300 dt).day + k) % 60 % 10) (by omega) (by omega)
  obtain ⟨b, hb, hbi⟩ := branchOfIdx_exists
    (i := (jdn_0h_utc (pillar_day_by_2300 dt).year (pillar_day_by_2300 dt).month
      (pillar_day_by_2300 dt).day + k) % 60 % 12) (by omega) (by omega)
  simp only [stemOfIdx, branchOfIdx] at hg hb
  refine ⟨g, b, ?_, by omega⟩
  simp only [day_ganji_solar, stemStrAt, branchStrAt, hg, hb]
  rfl

theorem dayun_parity (mg mb : Int) (hpar : mg % 2 = mb % 2) (forward : Bool)
    (start_age : Int) (count : Nat) :
    (build_dayun_list_indices mg mb forward start_age count).Forall
      (fun it => ∃ s, dayunPillar it = some s ∧ PillarParityOK s) := by
  rw [List.forall_iff_forall_mem]
  intro it hit
  simp only [build_dayun_list_indices, List.mem_map, List.mem_range] at hit
  obtain ⟨i0, _, rfl⟩ := hit
  obtain ⟨g, hg, hgi⟩ := stemOfIdx_exists
    (i := (mg + (if forward then (1 : Int) else -1) * ((i0 : Int) + 1)) % 10)
    (by omega) (by omega)
  obtain ⟨b, hb, hbi⟩ := monthJiGet_exists
    (i := (mb + (if forward then (1 : Int) else -1) * ((i0 : Int) + 1)) % 12)
    (by omega) (by omega)
  simp only [stemOfIdx] at hg
  refine ⟨stemChar g ++ branchChar b, ?_, g, b, rfl, by omega⟩
  simp only [dayunPillar, hg, hb]
  rfl

theorem stemOfIdx_idx {i : Int} {g : Stem} (h0 : 0 ≤ i) (h10 : i < 10)
    (h : stemOfIdx i = some g) : (stemIdx g : Int) = i := by
  obtain ⟨g', hg', hgi⟩ := stemOfIdx_exists h0 h10
  rw [hg'] at h
  injection h with h
  subst h
  exact hgi

theorem branchOfIdx_idx {i : Int} {b : Branch} (h0 : 0 ≤ i) (h12 : i < 12)
    (h : branchOfIdx i = some b) : (branchIdx b : Int) = i := by
  obtain ⟨b', hb', hbi⟩ := branchOfIdx_exists h0 h12
  rw [hb'] at h
  injection h with h
  subst h
  exact hbi

theorem hour_branch_bounds (dt : DateTime) :
    0 ≤ hour_branch_idx_2300 dt ∧ hour_branch_idx_2300 dt < 12 := by
  simp only [hour_branch_idx_2300]
  omega

/-- C3: every pillar produced by the engine — the year, month, day and hour
pillars of `four_pillars_from_solar`, and every decade-cycle entry of
`build_dayun_list_indices` as rendered by the decade strip — satisfies the
sexagenary parity invariant: the stem's index modulo 2 equals the branch's
index (in the 12-branch order) modulo 2. -/
theorem four_pillars_parity (rf : RootFinder) (collab : Collab) (dt : DateTime) (k : Int)
    (key : Option String) (fp : FourPillars) (forward : Bool) (start_age : Int) (count : Nat)
    (h : four_pillars_from_solar rf collab dt k key = some fp) :
    PillarParityOK fp.year_pillar ∧ PillarParityOK fp.month_pillar ∧
      PillarParityOK fp.day_pillar ∧ PillarParityOK fp.hour_pillar ∧
      (build_dayun_list_indices fp.m_gidx fp.m_bidx forward start_age count).Forall
        (fun it => ∃ s, dayunPillar it = some s ∧ PillarParityOK s) := by
  unfold four_pillars_from_solar at h
  obtain ⟨jraw, hjraw, h⟩ := Option.bind_eq_some.mp h
  obtain ⟨jsol, hjsol, h⟩ := Option.bind_eq_some.mp h
  obtain ⟨ipchun, hip, h⟩ := Option.bind_eq_some.mp h
  obtain ⟨y, hy, h⟩ := Option.bind_eq_some.mp h
  obtain ⟨ygi, hygi, h⟩ := Option.bind_eq_some.mp h
  obtain ⟨yji, hyji, h⟩ := Option.bind_eq_some.mp h
  obtain ⟨yg, hyg, h⟩ := Option.bind_eq_some.mp h
  obtain ⟨yj, hyj, h⟩ := Option.bind_eq_some.mp h
  obtain ⟨ypl, hypl, h⟩ := Option.bind_eq_some.mp h
  obtain ⟨order0, hord, h⟩ := Option.bind_eq_some.mp h
  obtain ⟨pd, hpd, h⟩ := Option.bind_eq_some.mp h
  obtain ⟨order, horder, h⟩ := Option.bind_eq_some.mp h
  obtain ⟨last, hlast, h⟩ := Option.bind_eq_some.mp h
  obtain ⟨mbr, hmbr, h⟩ := Option.bind_eq_some.mp h
  obtain ⟨mbn, hmbn, h⟩ := Option.bind_eq_some.mp h
  obtain ⟨mbi, hmbi, h⟩ := Option.bind_eq_some.mp h
  obtain ⟨mgi, hmgi, h⟩ := Option.bind_eq_some.mp h
  obtain ⟨mg, hmg, h⟩ := Option.bind_eq_some.mp h
  obtain ⟨mpl, hmpl, h⟩ := Option.bind_eq_some.mp h
  obtain ⟨dayRes, hday, h⟩ := Option.bind_eq_some.mp h
  obtain ⟨hjx, hhjx, h⟩ := Option.bind_eq_some.mp h
  obtain ⟨dayGan, hdg, h⟩ := Option.bind_eq_some.mp h
  obtain ⟨zi, hzi, h⟩ := Option.bind_eq_some.mp h
  obtain ⟨zsn, hzsn, h⟩ := Option.bind_eq_some.mp h
  obtain ⟨hci, hhci, h⟩ := Option.bind_eq_some.mp h
  obtain ⟨hg, hhg, h⟩ := Option.bind_eq_some.mp h
  obtain ⟨hj, hhj, h⟩ := Option.bind_eq_some.mp h
  obtain ⟨hpl, hhpl, h⟩ := Option.bind_eq_some.mp h
  replace h := Option.some.inj h
  subst h
  injection hjsol with hjsol
  injection hy with hy
  injection hygi with hygi
  injection hyji with hyji
  injection hypl with hypl
  injection horder with horder
  injection hlast with hlast
  injection hmbi with hmbi
  injection hmgi with hmgi
  injection hmpl with hmpl
  injection hday with hday
  injection hhjx with hhjx
  injection hhci with hhci
  injection hhpl with hhpl
  have hygN : (stemIdx yg : Int) = ygi := stemOfIdx_idx (by omega) (by omega) hyg
  have hyjN : (branchIdx yj : Int) = yji := branchOfIdx_idx (by omega) (by omega) hyj
  rw [month_ji_findIdx mbr] at hmbn
  injection hmbn with hmbn
  have hms : month_start_gan_idx ygi = ((ygi % 5) * 2 + 2) % 10 := rfl
  have hmgN : (stemIdx mg : Int) = mgi := stemOfIdx_idx (by omega) (by omega) hmg
  have hjb := hour_branch_bounds dt
  have hhgN : (stemIdx hg : Int) = hci := stemOfIdx_idx (by omega) (by omega) hhg
  have hhjN : (branchIdx hj : Int) = hjx := branchOfIdx_idx (by omega) (by omega) hhj
  have hzsE : stemIdx zi % 2 = 0 := sidu_even dayGan zi hzi
  rw [cheongan_findIdx zi] at hzsn
  injection hzsn with hzsn
  refine ⟨⟨yg, yj, hypl.symm, by omega⟩, ⟨mg, mbr, hmpl.symm, by omega⟩, ?_, ?_, ?_⟩
  · rw [← hday]
    exact day_ganji_parity dt k
  · exact ⟨hg, hj, hhpl.symm, by omega⟩
  · exact dayun_parity mgi mbi (by omega) forward start_age count


def rfW : RootFinder := fun _ _ a => a

def collabW : Collab := ⟨fun _ _ => .error (), fun _ _ => .error ()⟩

def fpW : FourPillars := ⟨"갑진", "무진", "을축", "임오", ⟨2024, 2, 4, 8, 30⟩, 0, 4, 2⟩

/-- Witness for C3: an identity root finder and a failing collaborator at
2024-05-01 12:00 solar time, anchor 49, forward decades from age 3. -/
theorem four_pillars_parity_witness :
    PillarParityOK fpW.year_pillar ∧ PillarParityOK fpW.month_pillar ∧
      PillarParityOK fpW.day_pillar ∧ PillarParityOK fpW.hour_pillar ∧
      (build_dayun_list_indices fpW.m_gidx fpW.m_bidx true 3 10).Forall
        (fun it => ∃ s, dayunPillar it = some s ∧ PillarParityOK s) :=
  four_pillars_parity rfW collabW ⟨2024, 5, 1, 12, 0⟩ 49 none fpW true 3 10 (by decide)


/-- Witness for C5 at a concrete pair (갑, 기). -/
theorem ten_god_total_witness :
    ten_god_for_stem Stem.gap Stem.gi ∈ tenGodLabels ∧
      ten_god_for_stem Stem.gap Stem.gi ≠ "미정" :=
  ten_god_total Stem.gap Stem.gi

/-- Witness for C2 at a concrete input record. -/
theorem decide_geok_total_witness :
    ∃ lw : String × String,
      decide_geok ⟨Stem.gap, Branch.ja, some Stem.byeong, [Stem.gyeong], [Branch.ja],
        5, 0, 10, 3⟩ = some lw ∧ lw.1 ∈ allGeokLabels :=
  decide_geok_total ⟨Stem.gap, Branch.ja, some Stem.byeong, [Stem.gyeong], [Branch.ja],
    5, 0, 10, 3⟩

end Saju

